import Mathlib

/-!
Verification development for the cloud-stock-operator repository.

Shallow embedding of the account-ledger handlers:
  * the limit-enforcing conditional adjust protocol
    (src/lambda/control_plane_api/main.py `_handle_adjust_cash`,
     `_handle_adjust_shares`; src/lambda/stock_info_writer/main.py
     `_handle_adjust_managed_cash`, `_handle_adjust_managed_shares`),
  * the sentiment accumulator and decision engine
    (`_handle_apply_sentiment` and src/lambda/sentiment_scorer/main.py),
  * the news dedup gate (src/lambda/news_fetcher/main.py),
  * the virtual trade executor (src/local_app/local_trade_worker.py),
  * the watchlist entry operations and the retention cleanup
    (src/lambda/soft_delete/main.py, src/lambda/news_retention_cleaner/main.py).

DynamoDB Decimal / Python float quantities are modelled as rationals (ℚ);
integer attributes as Int.  A missing attribute or item is `Option.none`;
DynamoDB's `if_not_exists(field, 0)` becomes `Option.getD 0`.  A DynamoDB
`update_item` with a `ConditionExpression` either commits the new value or
raises `ConditionalCheckFailedException` leaving the item unchanged; we model
the pair (new stored value, committed flag) and, where the exception itself
is observable, an `Except` value.
-/

/-- Conditional cash adjustment, from `_handle_adjust_cash`
(src/lambda/control_plane_api/main.py) and `_handle_adjust_managed_cash`
(src/lambda/stock_info_writer/main.py).  The update expression is
`SET current_cash_managed = if_not_exists(current_cash_managed, 0) + delta`
guarded by `if_not_exists(current_cash_managed, 0) + delta <= max`.
Returns the stored value after the call and whether the write committed. -/
def adjustCash (cash : Option ℚ) (delta ceiling : ℚ) : Option ℚ × Bool :=
  if cash.getD 0 + delta ≤ ceiling then (some (cash.getD 0 + delta), true)
  else (cash, false)

/-- Conditional shares adjustment, from `_handle_adjust_shares`
(src/lambda/control_plane_api/main.py) and `_handle_adjust_managed_shares`
(src/lambda/stock_info_writer/main.py): identical protocol on the integer
field `shares_managed`.  The only condition is
`if_not_exists(shares_managed, 0) + delta <= max`. -/
def adjustShares (sh : Option Int) (delta ceiling : Int) : Option Int × Bool :=
  if sh.getD 0 + delta ≤ ceiling then (some (sh.getD 0 + delta), true)
  else (sh, false)

/-- A sequence of cash `adjust` calls with one fixed ceiling, folding the
stored value through each conditional update. -/
def adjustCashSeq (init : Option ℚ) (deltas : List ℚ) (ceiling : ℚ) : Option ℚ :=
  deltas.foldl (fun st d => (adjustCash st d ceiling).1) init

/-- A sequence of shares `adjust` calls with one fixed ceiling. -/
def adjustSharesSeq (init : Option Int) (deltas : List Int) (ceiling : Int) : Option Int :=
  deltas.foldl (fun st d => (adjustShares st d ceiling).1) init

lemma adjustCash_step_le (cash : Option ℚ) (d C : ℚ) (h : cash.getD 0 ≤ C) :
    ((adjustCash cash d C).1).getD 0 ≤ C := by
  by_cases hc : cash.getD 0 + d ≤ C
  · simp [adjustCash, hc]
  · simpa [adjustCash, hc] using h

lemma adjustCashSeq_le (ds : List ℚ) (C : ℚ) :
    ∀ init : Option ℚ, init.getD 0 ≤ C → (adjustCashSeq init ds C).getD 0 ≤ C := by
  induction ds with
  | nil => intro init h; simpa [adjustCashSeq] using h
  | cons d ds ih =>
      intro init h
      simpa [adjustCashSeq, List.foldl_cons] using
        ih ((adjustCash init d C).1) (adjustCash_step_le init d C h)

lemma adjustShares_step_le (sh : Option Int) (d C : Int) (h : sh.getD 0 ≤ C) :
    ((adjustShares sh d C).1).getD 0 ≤ C := by
  by_cases hc : sh.getD 0 + d ≤ C
  · simp [adjustShares, hc]
  · simpa [adjustShares, hc] using h

lemma adjustSharesSeq_le (ds : List Int) (C : Int) :
    ∀ init : Option Int, init.getD 0 ≤ C → (adjustSharesSeq init ds C).getD 0 ≤ C := by
  induction ds with
  | nil => intro init h; simpa [adjustSharesSeq] using h
  | cons d ds ih =>
      intro init h
      simpa [adjustSharesSeq, List.foldl_cons] using
        ih ((adjustShares init d C).1) (adjustShares_step_le init d C h)

/-- Claim C1: every cash or shares adjust call commits `current + delta`
(missing field read as zero) exactly when `current + delta ≤ ceiling`; a
rejected call leaves the stored value unchanged; and along any sequence of
adjust calls under a fixed ceiling the stored value never exceeds that
ceiling (at every intermediate point), provided it did not already. -/
theorem adjust_ceiling_invariant :
    (∀ (cash : Option ℚ) (d C : ℚ),
        ((adjustCash cash d C).2 = true ↔ cash.getD 0 + d ≤ C)) ∧
    (∀ (cash : Option ℚ) (d C : ℚ),
        (adjustCash cash d C).2 = true → (adjustCash cash d C).1 = some (cash.getD 0 + d)) ∧
    (∀ (cash : Option ℚ) (d C : ℚ),
        (adjustCash cash d C).2 = false → (adjustCash cash d C).1 = cash) ∧
    (∀ (init : Option ℚ) (ds : List ℚ) (C : ℚ),
        init.getD 0 ≤ C → ∀ n, (adjustCashSeq init (ds.take n) C).getD 0 ≤ C) ∧
    (∀ (sh : Option Int) (d C : Int),
        ((adjustShares sh d C).2 = true ↔ sh.getD 0 + d ≤ C)) ∧
    (∀ (sh : Option Int) (d C : Int),
        (adjustShares sh d C).2 = true → (adjustShares sh d C).1 = some (sh.getD 0 + d)) ∧
    (∀ (sh : Option Int) (d C : Int),
        (adjustShares sh d C).2 = false → (adjustShares sh d C).1 = sh) ∧
    (∀ (init : Option Int) (ds : List Int) (C : Int),
        init.getD 0 ≤ C → ∀ n, (adjustSharesSeq init (ds.take n) C).getD 0 ≤ C) := by
  refine ⟨?_, ?_, ?_, ?_, ?_, ?_, ?_, ?_⟩
  · intro cash d C; by_cases hc : cash.getD 0 + d ≤ C <;> simp [adjustCash, hc]
  · intro cash d C; by_cases hc : cash.getD 0 + d ≤ C <;> simp [adjustCash, hc]
  · intro cash d C; by_cases hc : cash.getD 0 + d ≤ C <;> simp [adjustCash, hc]
  · intro init ds C h n; exact adjustCashSeq_le (ds.take n) C init h
  · intro sh d C; by_cases hc : sh.getD 0 + d ≤ C <;> simp [adjustShares, hc]
  · intro sh d C; by_cases hc : sh.getD 0 + d ≤ C <;> simp [adjustShares, hc]
  · intro sh d C; by_cases hc : sh.getD 0 + d ≤ C <;> simp [adjustShares, hc]
  · intro init ds C h n; exact adjustSharesSeq_le (ds.take n) C init h

/-- Witness for C1 at concrete inputs: a committing call, a rejected call
left unchanged, and two folded sequences staying under their ceilings. -/
theorem adjust_ceiling_invariant_witness :
    (adjustCash (some 3) 2 10).1 = some 5 ∧
    (adjustCash (some 3) 20 10).1 = some 3 ∧
    (adjustCashSeq none (([5, 200, 90] : List ℚ).take 3) 100).getD 0 ≤ 100 ∧
    (adjustShares (some 4) 2 10).1 = some 6 ∧
    (adjustShares (some 4) 20 10).1 = some 4 ∧
    (adjustSharesSeq none (([5, 200, 90] : List Int).take 3) 100).getD 0 ≤ 100 := by
  refine ⟨?_, ?_, ?_, ?_, ?_, ?_⟩
  · have h := adjust_ceiling_invariant.2.1 (some 3) 2 10 (by norm_num [adjustCash])
    norm_num at h
    exact h
  · have h := adjust_ceiling_invariant.2.2.1 (some 3) 20 10 (by norm_num [adjustCash])
    exact h
  · exact adjust_ceiling_invariant.2.2.2.1 none [5, 200, 90] 100 (by norm_num) 3
  · have h := adjust_ceiling_invariant.2.2.2.2.2.1 (some 4) 2 10 (by norm_num [adjustShares])
    norm_num at h
    exact h
  · have h := adjust_ceiling_invariant.2.2.2.2.2.2.1 (some 4) 20 10
      (by norm_num [adjustShares])
    exact h
  · exact adjust_ceiling_invariant.2.2.2.2.2.2.2 none [5, 200, 90] 100 (by norm_num) 3

/-- Counterexample for claim C5: the shares conditional update checks only
the ceiling.  With `shares_managed = 5`, `delta = -10`, `ceiling = 100` the
condition `5 + (-10) ≤ 100` holds, so the write commits and the stored
shares become `-5 < 0`; the call is neither rejected nor does it leave the
state unchanged. -/
theorem adjustShares_goes_negative_cex :
    adjustShares (some 5) (-10) 100 = (some (-5), true) ∧ ¬ (0 : Int) ≤ -5 := by
  constructor
  · norm_num [adjustShares]
  · norm_num

/-- Claim C5 as amended: a shares adjustment is rejected exactly when
`current + delta` (missing read as zero) would exceed the ceiling; there is
no lower-bound check, so any result `current + delta ≤ ceiling` — including
a negative one — is committed. -/
theorem adjustShares_only_ceiling_checked (sh : Option Int) (d C : Int) :
    ((adjustShares sh d C).2 = false ↔ C < sh.getD 0 + d) ∧
    (sh.getD 0 + d ≤ C → adjustShares sh d C = (some (sh.getD 0 + d), true)) := by
  constructor
  · by_cases hc : sh.getD 0 + d ≤ C <;> simp [adjustShares, hc]
    omega
  · intro h
    simp [adjustShares, h]

/-- Witness for the amended C5 at a concrete input whose committed result is
negative. -/
theorem adjustShares_only_ceiling_checked_witness :
    adjustShares (some 5) (-10) 100 = (some (-5), true) := by
  have h := (adjustShares_only_ceiling_checked (some 5) (-10) 100).2 (by norm_num)
  norm_num at h ⊢
  exact h

/-- The store-level error raised by a failed `ConditionExpression`
(`botocore` `ConditionalCheckFailedException`). -/
inductive DbError
  | conditionalCheckFailed
deriving DecidableEq

/-- The control-plane cash adjust endpoint, from `_handle_adjust_cash`
(src/lambda/control_plane_api/main.py): the `update_item` call is not
wrapped in any try/except (neither there nor in `handler`), so a failed
condition check propagates as an exception instead of producing a response;
on success the endpoint returns an HTTP 200 response.  Result: stored cash
after the call, and either the status code or the propagated error. -/
def handleAdjustCashApi (cash : Option ℚ) (delta ceiling : ℚ) :
    Option ℚ × Except DbError Nat :=
  if cash.getD 0 + delta ≤ ceiling then
    (some (cash.getD 0 + delta), Except.ok 200)
  else (cash, Except.error DbError.conditionalCheckFailed)

/-- The queue-driven writer path, from `_handle_adjust_managed_cash` plus the
`handler` dispatch loop of src/lambda/stock_info_writer/main.py: the loop
catches every exception, logs it, and simply does not count the record as
processed; no rejection reason reaches any caller.  Result: stored cash and
the contribution to the `processed` counter. -/
def writerAdjustManagedCash (cash : Option ℚ) (delta ceiling : ℚ) :
    Option ℚ × Nat :=
  if cash.getD 0 + delta ≤ ceiling then (some (cash.getD 0 + delta), 1)
  else (cash, 0)

/-- Counterexample for claim C8: a ceiling-violating adjust on the
control-plane endpoint (cash 100, delta 50, ceiling 120) yields a propagated
`ConditionalCheckFailedException`, not a structured rejection outcome. -/
theorem adjust_rejection_raises_cex :
    handleAdjustCashApi (some 100) 50 120 =
      (some 100, Except.error DbError.conditionalCheckFailed) := by
  norm_num [handleAdjustCashApi]

/-- Claim C8 as amended: a ceiling-violating conditional adjust mutates no
state and the condition re-evaluates current state on each attempt, so
retrying the same delta after a rejection is safe (it repeats the same
rejection on the unchanged state); but the caller is not given a structured
rejection outcome: the control-plane endpoint propagates the conditional
failure as an exception, and the queue writer swallows it, merely leaving
the record out of its processed count. -/
theorem adjust_rejection_surface (cash : Option ℚ) (d C : ℚ)
    (h : ¬ cash.getD 0 + d ≤ C) :
    handleAdjustCashApi cash d C = (cash, Except.error DbError.conditionalCheckFailed) ∧
    writerAdjustManagedCash cash d C = (cash, 0) ∧
    handleAdjustCashApi (handleAdjustCashApi cash d C).1 d C =
      handleAdjustCashApi cash d C := by
  refine ⟨?_, ?_, ?_⟩
  · simp [handleAdjustCashApi, h]
  · simp [writerAdjustManagedCash, h]
  · simp [handleAdjustCashApi, h]

/-- Witness for the amended C8 at cash 100, delta 50, ceiling 120. -/
theorem adjust_rejection_surface_witness :
    handleAdjustCashApi (some 100) 50 120 =
      ((some 100 : Option ℚ), Except.error DbError.conditionalCheckFailed) ∧
    writerAdjustManagedCash (some 100) 50 120 = (some 100, 0) ∧
    handleAdjustCashApi (handleAdjustCashApi (some 100) 50 120).1 50 120 =
      handleAdjustCashApi (some 100) 50 120 :=
  adjust_rejection_surface (some 100) 50 120 (by norm_num)

/-- The trade action decided by a sentiment application.  In the source the
response field `action` is the string `"BUY"`, `"SELL"` or Python `None`;
`None` is rendered here as `TradeAction.NONE`. -/
inductive TradeAction
  | BUY
  | SELL
  | NONE
deriving DecidableEq

/-- One immutable `SCORE#<symbol>#<timestamp>` item, from the `put_item` in
`_handle_apply_sentiment` (src/lambda/control_plane_api/main.py).  The
symbol and timestamp key parts are not modelled. -/
structure ScoreHistoryRecord where
  old_score : Int
  delta_score : Int
  new_score : Int
  threshold_abs : Int
  reason : String
deriving DecidableEq

/-- Outcome of one sentiment application: the persisted score and threshold,
the decided action, and the list of `SCORE#` history items written. -/
structure SentimentOutcome where
  new_score : Int
  threshold_abs : Int
  action : TradeAction
  history : List ScoreHistoryRecord
deriving DecidableEq

/-- The control-plane sentiment endpoint, from `_handle_apply_sentiment`
(src/lambda/control_plane_api/main.py).  `storedScore`/`storedThreshold` are
the `current_level_score` and `threshold_abs` attributes of the watchlist
item (`none` when the attribute or item is absent), `hint` is the request's
`threshold_abs` (the code defaults it to 3 before this point).  The code
computes `existing_threshold = int(item.get("threshold_abs", threshold_abs))`
and then `threshold_abs = existing_threshold or threshold_abs`, so a stored
threshold of 0 is falsy and falls back to the hint.  One history item is
always written; the decision chain is
`BUY if new_score >= threshold elif new_score <= -threshold else None`. -/
def handleApplySentiment (storedScore storedThreshold : Option Int)
    (delta hint : Int) (reason : String) : SentimentOutcome :=
  let currentScore := storedScore.getD 0
  let existingThreshold := storedThreshold.getD hint
  let newScore := currentScore + delta
  let effThreshold := if existingThreshold ≠ 0 then existingThreshold else hint
  { new_score := newScore
    threshold_abs := effThreshold
    action :=
      if effThreshold ≤ newScore then TradeAction.BUY
      else if newScore ≤ -effThreshold then TradeAction.SELL
      else TradeAction.NONE
    history := [⟨currentScore, delta, newScore, effThreshold, reason⟩] }

/-- The claim's (and spec §4.3's) literal reading of the same operation:
`effectiveThreshold = existingThreshold if set else thresholdHint`, i.e. a
stored threshold attribute is used whenever it is present, with no
falsiness fallback.  Kept only to compare with `handleApplySentiment`. -/
def specApplySentiment (storedScore storedThreshold : Option Int)
    (delta hint : Int) (reason : String) : SentimentOutcome :=
  let currentScore := storedScore.getD 0
  let newScore := currentScore + delta
  let effThreshold := storedThreshold.getD hint
  { new_score := newScore
    threshold_abs := effThreshold
    action :=
      if effThreshold ≤ newScore then TradeAction.BUY
      else if newScore ≤ -effThreshold then TradeAction.SELL
      else TradeAction.NONE
    history := [⟨currentScore, delta, newScore, effThreshold, reason⟩] }

/-- Counterexample for claim C2: with a stored threshold attribute equal to
0, a hint of 3, current score 0 and delta 1, the code's effective threshold
is the hint 3 (Python `0 or 3`), and the action is NONE; under the claim's
"existing stored threshold if set" the effective threshold would be 0 and
the action BUY.  The two disagree at this input. -/
theorem applySentiment_threshold_zero_cex :
    (handleApplySentiment (some 0) (some 0) 1 3 "FINBERT").threshold_abs = 3 ∧
    (handleApplySentiment (some 0) (some 0) 1 3 "FINBERT").action = TradeAction.NONE ∧
    (specApplySentiment (some 0) (some 0) 1 3 "FINBERT").threshold_abs = 0 ∧
    (specApplySentiment (some 0) (some 0) 1 3 "FINBERT").action = TradeAction.BUY := by
  refine ⟨rfl, ?_, rfl, ?_⟩
  · norm_num [handleApplySentiment]
  · norm_num [specApplySentiment]

lemma decision_chain_cases (t n : Int) :
    ((if t ≤ n then TradeAction.BUY
      else if n ≤ -t then TradeAction.SELL else TradeAction.NONE) = TradeAction.BUY ↔
      t ≤ n) ∧
    ((if t ≤ n then TradeAction.BUY
      else if n ≤ -t then TradeAction.SELL else TradeAction.NONE) = TradeAction.SELL ↔
      n ≤ -t ∧ n < t) ∧
    ((if t ≤ n then TradeAction.BUY
      else if n ≤ -t then TradeAction.SELL else TradeAction.NONE) = TradeAction.NONE ↔
      -t < n ∧ n < t) := by
  by_cases h1 : t ≤ n <;> by_cases h2 : n ≤ -t <;> simp [h1, h2] <;> omega

/-- Claim C2 as amended: `new_score = currentScore + delta` (absent entry
read as score 0); the effective threshold is the stored threshold when it is
present and nonzero, and the caller's hint when the stored threshold is
absent or zero; the action is BUY iff `new_score ≥ threshold`, SELL iff
`new_score ≤ -threshold` and the BUY case did not fire, NONE otherwise; and
the outcome is a deterministic function of these inputs. -/
theorem applySentiment_decision (storedScore storedThreshold : Option Int)
    (delta hint : Int) (reason : String) :
    (handleApplySentiment storedScore storedThreshold delta hint reason).new_score =
      storedScore.getD 0 + delta ∧
    (∀ k, storedThreshold = some k → k ≠ 0 →
      (handleApplySentiment storedScore storedThreshold delta hint reason).threshold_abs = k) ∧
    (storedThreshold = none ∨ storedThreshold = some 0 →
      (handleApplySentiment storedScore storedThreshold delta hint reason).threshold_abs =
        hint) ∧
    ((handleApplySentiment storedScore storedThreshold delta hint reason).action =
        TradeAction.BUY ↔
      (handleApplySentiment storedScore storedThreshold delta hint reason).threshold_abs ≤
        (handleApplySentiment storedScore storedThreshold delta hint reason).new_score) ∧
    ((handleApplySentiment storedScore storedThreshold delta hint reason).action =
        TradeAction.SELL ↔
      (handleApplySentiment storedScore storedThreshold delta hint reason).new_score ≤
        -(handleApplySentiment storedScore storedThreshold delta hint reason).threshold_abs ∧
      (handleApplySentiment storedScore storedThreshold delta hint reason).new_score <
        (handleApplySentiment storedScore storedThreshold delta hint reason).threshold_abs) ∧
    ((handleApplySentiment storedScore storedThreshold delta hint reason).action =
        TradeAction.NONE ↔
      -(handleApplySentiment storedScore storedThreshold delta hint reason).threshold_abs <
        (handleApplySentiment storedScore storedThreshold delta hint reason).new_score ∧
      (handleApplySentiment storedScore storedThreshold delta hint reason).new_score <
        (handleApplySentiment storedScore storedThreshold delta hint reason).threshold_abs) := by
  refine ⟨rfl, ?_, ?_,
    (decision_chain_cases
      (handleApplySentiment storedScore storedThreshold delta hint reason).threshold_abs
      (handleApplySentiment storedScore storedThreshold delta hint reason).new_score).1,
    (decision_chain_cases
      (handleApplySentiment storedScore storedThreshold delta hint reason).threshold_abs
      (handleApplySentiment storedScore storedThreshold delta hint reason).new_score).2.1,
    (decision_chain_cases
      (handleApplySentiment storedScore storedThreshold delta hint reason).threshold_abs
      (handleApplySentiment storedScore storedThreshold delta hint reason).new_score).2.2⟩
  · rintro k rfl hk
    simp [handleApplySentiment, hk]
  · rintro (rfl | rfl) <;> simp [handleApplySentiment]

/-- Witness for the amended C2 on the spec's own examples:
score 2, delta 1, threshold 3 gives (3, BUY); score -2, delta -1 gives
(-3, SELL); score 0, delta 1 gives (1, NONE). -/
theorem applySentiment_decision_witness :
    (handleApplySentiment (some 2) (some 3) 1 3 "r").new_score = 3 ∧
    (handleApplySentiment (some 2) (some 3) 1 3 "r").action = TradeAction.BUY ∧
    (handleApplySentiment (some (-2)) (some 3) (-1) 3 "r").new_score = -3 ∧
    (handleApplySentiment (some (-2)) (some 3) (-1) 3 "r").action = TradeAction.SELL ∧
    (handleApplySentiment (some 0) (some 3) 1 3 "r").new_score = 1 ∧
    (handleApplySentiment (some 0) (some 3) 1 3 "r").action = TradeAction.NONE := by
  refine ⟨?_, ?_, ?_, ?_, ?_, ?_⟩
  · exact (applySentiment_decision (some 2) (some 3) 1 3 "r").1
  · exact ((applySentiment_decision (some 2) (some 3) 1 3 "r").2.2.2.1).mpr
      (by norm_num [handleApplySentiment])
  · have h := (applySentiment_decision (some (-2)) (some 3) (-1) 3 "r").1
    norm_num at h
    exact h
  · exact ((applySentiment_decision (some (-2)) (some 3) (-1) 3 "r").2.2.2.2.1).mpr
      (by norm_num [handleApplySentiment])
  · exact (applySentiment_decision (some 0) (some 3) 1 3 "r").1
  · exact ((applySentiment_decision (some 0) (some 3) 1 3 "r").2.2.2.2.2).mpr
      (by norm_num [handleApplySentiment])

/-- One news item's processing by the random sentiment scorer, from
`handler` in src/lambda/sentiment_scorer/main.py.  `r` is the sampled delta
in {-1, 0, +1} (randomness is a parameter here).  The code reads
`current_level_score` (default 0) and `threshold_abs` (default 1, no falsy
fallback), writes back `current_level_score = current + r` and the
threshold, and runs the same BUY/SELL/NONE chain — but it contains no
`put_item` of a `SCORE#` history item, so `history` is empty. -/
def scorerApplyItem (storedScore storedThreshold : Option Int) (r : Int) :
    SentimentOutcome :=
  let currentScore := storedScore.getD 0
  let threshold := storedThreshold.getD 1
  let newScore := currentScore + r
  { new_score := newScore
    threshold_abs := threshold
    action :=
      if threshold ≤ newScore then TradeAction.BUY
      else if newScore ≤ -threshold then TradeAction.SELL
      else TradeAction.NONE
    history := [] }

/-- Counterexample for claim C7: a sentiment application through the random
scorer (stored score 0, stored threshold 5, sampled delta +1, action NONE)
appends no `ScoreHistoryRecord` at all — not exactly one. -/
theorem scorer_no_history_cex :
    (scorerApplyItem (some 0) (some 5) 1).history.length = 0 ∧
    (scorerApplyItem (some 0) (some 5) 1).history.length ≠ 1 ∧
    (scorerApplyItem (some 0) (some 5) 1).action = TradeAction.NONE := by
  refine ⟨rfl, by norm_num [scorerApplyItem], by norm_num [scorerApplyItem]⟩

/-- Claim C7 as amended: the control-plane `applySentiment` path appends
exactly one immutable `ScoreHistoryRecord` per application, capturing old
score, delta, new score, effective threshold and reason, unconditionally —
in particular also when the action is NONE; the alternate random-sentiment
scorer path appends none. -/
theorem sentiment_history_append (storedScore storedThreshold : Option Int)
    (delta hint : Int) (reason : String) (r : Int) :
    (handleApplySentiment storedScore storedThreshold delta hint reason).history =
      [⟨storedScore.getD 0, delta,
        storedScore.getD 0 + delta,
        (handleApplySentiment storedScore storedThreshold delta hint reason).threshold_abs,
        reason⟩] ∧
    (handleApplySentiment storedScore storedThreshold delta hint reason).history.length = 1 ∧
    (scorerApplyItem storedScore storedThreshold r).history = [] := by
  exact ⟨rfl, rfl, rfl⟩

/-- Result of the dedup gate, from `_mark_news_seen`
(src/lambda/news_fetcher/main.py): `true` ⇒ first time seen (caller
proceeds), `false` ⇒ duplicate (caller skips).  Rendered as an inductive for
readability. -/
inductive SeenResult
  | FirstSeen
  | AlreadySeen
deriving DecidableEq

/-- Python `str.upper()` on the string's character list (ASCII-faithful). -/
def pyUpper (s : String) : String :=
  String.mk (s.data.map Char.toUpper)

/-- Python `str.strip()`: drop whitespace from both ends. -/
def pyStrip (s : String) : String :=
  String.mk (((s.data.dropWhile Char.isWhitespace).reverse.dropWhile
    Char.isWhitespace).reverse)

/-- The fingerprint input of `_news_hash`: sha256 over
`symbol.upper() | headline.strip() | published_at`, truncated to 32 hex
chars.  The hash itself is modelled by its preimage string — faithful for
every determinism/idempotence property, since sha256 is a function of
exactly these bytes. -/
def newsFingerprint (symbol headline published_at : String) : String :=
  pyUpper symbol ++ "|" ++ pyStrip headline ++ "|" ++ published_at

/-- The dedup marker's sort key `NEWSHASH#<SYMBOL>#<hash>` written by
`_mark_news_seen`. -/
def newsDedupKey (symbol headline published_at : String) : String :=
  "NEWSHASH#" ++ pyUpper symbol ++ "#" ++ newsFingerprint symbol headline published_at

/-- The dedup gate `_mark_news_seen` (src/lambda/news_fetcher/main.py): an
atomic create-if-absent `put_item` with
`ConditionExpression = attribute_not_exists(PK)` on the fingerprint key.
The store is the set of dedup keys already present (one account).  Returns
the gate result and the store afterwards. -/
def markNewsSeen (store : List String) (symbol headline published_at : String) :
    SeenResult × List String :=
  if newsDedupKey symbol headline published_at ∈ store then
    (SeenResult.AlreadySeen, store)
  else
    (SeenResult.FirstSeen, newsDedupKey symbol headline published_at :: store)

/-- One news item's pass through the `handler` loop of
src/lambda/news_fetcher/main.py: if `_mark_news_seen` returns False the
loop `continue`s, publishing nothing; otherwise it publishes exactly one
NEW_NEWS message.  Returns the store afterwards and the number of NEW_NEWS
events published for this item. -/
def processNewsItem (store : List String) (symbol headline published_at : String) :
    List String × Nat :=
  match markNewsSeen store symbol headline published_at with
  | (SeenResult.FirstSeen, st) => (st, 1)
  | (SeenResult.AlreadySeen, st) => (st, 0)

/-- Claim C4: marking the same `(symbol, headline, publishedAt)` twice
yields FirstSeen then AlreadySeen (the fingerprint is a deterministic
function of those inputs and the marker write is create-if-absent), and the
handler publishes no NEW_NEWS event when processing the duplicate. -/
theorem markSeen_dedup_idempotent (store : List String)
    (symbol headline published_at : String)
    (h : newsDedupKey symbol headline published_at ∉ store) :
    (markNewsSeen store symbol headline published_at).1 = SeenResult.FirstSeen ∧
    (markNewsSeen (markNewsSeen store symbol headline published_at).2
        symbol headline published_at).1 = SeenResult.AlreadySeen ∧
    (processNewsItem (markNewsSeen store symbol headline published_at).2
        symbol headline published_at).2 = 0 := by
  refine ⟨?_, ?_, ?_⟩
  · simp [markNewsSeen, h]
  · simp [markNewsSeen, h]
  · simp [processNewsItem, markNewsSeen, h]

/-- Witness for C4 on a concrete fresh store and news item. -/
theorem markSeen_dedup_idempotent_witness :
    (markNewsSeen [] "aapl" " Apple pops " "2025-01-02T03:04:05Z").1 =
      SeenResult.FirstSeen ∧
    (markNewsSeen (markNewsSeen [] "aapl" " Apple pops " "2025-01-02T03:04:05Z").2
        "aapl" " Apple pops " "2025-01-02T03:04:05Z").1 = SeenResult.AlreadySeen ∧
    (processNewsItem (markNewsSeen [] "aapl" " Apple pops " "2025-01-02T03:04:05Z").2
        "aapl" " Apple pops " "2025-01-02T03:04:05Z").2 = 0 :=
  markSeen_dedup_idempotent [] "aapl" " Apple pops " "2025-01-02T03:04:05Z"
    (List.not_mem_nil _)

/-- The `last_fetched_price` attribute on a STOCK item as read by the trade
worker: absent, present but not convertible by `float(...)`, or a numeric
value. -/
inductive StoredPrice
  | missing
  | nonNumeric
  | price (p : ℚ)

/-- `_get_last_fetched_price` (src/local_app/local_trade_worker.py):
returns None when the attribute is absent or `float(value)` raises
TypeError/ValueError, else the numeric value. -/
def getLastFetchedPrice : StoredPrice → Option ℚ
  | StoredPrice.missing => none
  | StoredPrice.nonNumeric => none
  | StoredPrice.price p => some p

/-- Status strings written by `_handle_auto_trade_decision`
(src/local_app/local_trade_worker.py). -/
inductive TradeStatus
  | EXECUTED_VIRTUAL
  | REJECTED_NO_PRICE
  | REJECTED_INSUFFICIENT_MANAGED_CASH
  | REJECTED_INSUFFICIENT_SHARES
  | REJECTED_BAD_ACTION
deriving DecidableEq

/-- One `TRADE#<timestamp>` item, from the unconditional `put_item` at the
end of `_handle_auto_trade_decision`.  The symbol, reason, score, threshold
and timestamps also stored there are not modelled. -/
structure TradeRecord where
  side : String
  status : TradeStatus
  quantity : Int
  last_price : Option ℚ
  managed_cash_before : ℚ
  managed_cash_after : ℚ
deriving DecidableEq

/-- Ledger effects of one AUTO_TRADE_DECISION: stored cash, stored shares of
the decision's symbol, the trade record of this call, and the TRADE# items
after appending it. -/
structure TradeStep where
  cash : Option ℚ
  shares : Option Int
  record : TradeRecord
  trades : List TradeRecord

/-- `_handle_auto_trade_decision` (src/local_app/local_trade_worker.py).
`notional = last_price * quantity` is only defined when the price is known
and positive, otherwise the trade is `REJECTED_NO_PRICE`.  BUY requires
`cash_before >= notional`, else `REJECTED_INSUFFICIENT_MANAGED_CASH`; on
success cash is set to `before - notional` and shares to
`if_not_exists(shares_managed, 0) + quantity`.  SELL requires
`current_shares >= quantity`, else `REJECTED_INSUFFICIENT_SHARES`; on
success shares are set to `current - quantity` and cash to
`before + notional`.  Any other action is `REJECTED_BAD_ACTION`.  A TRADE#
record is appended on every path.  The recomputation of
positions_value/net_worth after an executed trade touches neither cash nor
shares and is not modelled. -/
def handleAutoTradeDecision (action : String) (quantity : Int)
    (priceAttr : StoredPrice) (cash0 : Option ℚ) (shares0 : Option Int)
    (trades0 : List TradeRecord) : TradeStep :=
  let lastPrice := getLastFetchedPrice priceAttr
  let notionalOpt : Option ℚ :=
    match lastPrice with
    | some p => if 0 < p then some (p * (quantity : ℚ)) else none
    | none => none
  let before := cash0.getD 0
  match notionalOpt with
  | none =>
      let rcd : TradeRecord :=
        ⟨action, TradeStatus.REJECTED_NO_PRICE, quantity, lastPrice, before, before⟩
      ⟨cash0, shares0, rcd, trades0 ++ [rcd]⟩
  | some notional =>
      if pyUpper action = "BUY" then
        if before < notional then
          let rcd : TradeRecord :=
            ⟨action, TradeStatus.REJECTED_INSUFFICIENT_MANAGED_CASH, quantity,
              lastPrice, before, before⟩
          ⟨cash0, shares0, rcd, trades0 ++ [rcd]⟩
        else
          let rcd : TradeRecord :=
            ⟨action, TradeStatus.EXECUTED_VIRTUAL, quantity, lastPrice, before,
              before - notional⟩
          ⟨some (before - notional), some (shares0.getD 0 + quantity), rcd,
            trades0 ++ [rcd]⟩
      else if pyUpper action = "SELL" then
        if shares0.getD 0 < quantity then
          let rcd : TradeRecord :=
            ⟨action, TradeStatus.REJECTED_INSUFFICIENT_SHARES, quantity, lastPrice,
              before, before⟩
          ⟨cash0, shares0, rcd, trades0 ++ [rcd]⟩
        else
          let rcd : TradeRecord :=
            ⟨action, TradeStatus.EXECUTED_VIRTUAL, quantity, lastPrice, before,
              before + notional⟩
          ⟨some (before + notional), some (shares0.getD 0 - quantity), rcd,
            trades0 ++ [rcd]⟩
      else
        let rcd : TradeRecord :=
          ⟨action, TradeStatus.REJECTED_BAD_ACTION, quantity, lastPrice, before,
            before⟩
        ⟨cash0, shares0, rcd, trades0 ++ [rcd]⟩

/-- Claim C3: a BUY decision with a known positive price `p` and quantity
`q` is rejected as `REJECTED_INSUFFICIENT_MANAGED_CASH` with cash and shares
unchanged when `cash < p * q`, and otherwise executes virtually with cash
decreased by exactly `p * q` and shares increased by exactly `q`; a
`TradeRecord` is appended to the TRADE# items in both cases. -/
theorem trade_buy_affordability (q : Int) (p : ℚ) (cash0 : Option ℚ)
    (sh0 : Option Int) (tr : List TradeRecord) (hp : 0 < p) :
    (cash0.getD 0 < p * (q : ℚ) →
      (handleAutoTradeDecision "BUY" q (StoredPrice.price p) cash0 sh0 tr).record.status =
          TradeStatus.REJECTED_INSUFFICIENT_MANAGED_CASH ∧
        (handleAutoTradeDecision "BUY" q (StoredPrice.price p) cash0 sh0 tr).cash = cash0 ∧
        (handleAutoTradeDecision "BUY" q (StoredPrice.price p) cash0 sh0 tr).shares = sh0) ∧
    (p * (q : ℚ) ≤ cash0.getD 0 →
      (handleAutoTradeDecision "BUY" q (StoredPrice.price p) cash0 sh0 tr).record.status =
          TradeStatus.EXECUTED_VIRTUAL ∧
        (handleAutoTradeDecision "BUY" q (StoredPrice.price p) cash0 sh0 tr).cash =
          some (cash0.getD 0 - p * (q : ℚ)) ∧
        (handleAutoTradeDecision "BUY" q (StoredPrice.price p) cash0 sh0 tr).shares =
          some (sh0.getD 0 + q)) ∧
    (handleAutoTradeDecision "BUY" q (StoredPrice.price p) cash0 sh0 tr).trades =
      tr ++ [(handleAutoTradeDecision "BUY" q (StoredPrice.price p) cash0 sh0 tr).record] := by
  have hup : pyUpper "BUY" = "BUY" := rfl
  refine ⟨?_, ?_, ?_⟩
  · intro hc
    simp [handleAutoTradeDecision, getLastFetchedPrice, hup, hp, hc]
  · intro hc
    simp [handleAutoTradeDecision, getLastFetchedPrice, hup, hp, not_lt.mpr hc]
  · by_cases hc : cash0.getD 0 < p * (q : ℚ) <;>
      simp [handleAutoTradeDecision, getLastFetchedPrice, hup, hp, hc]

/-- Witness for C3 on the spec's example: BUY 10 at price 50 with cash 400
is rejected leaving cash and shares unchanged; with cash 600 it executes,
leaving cash 100 and shares +10; the trade record is appended both times. -/
theorem trade_buy_affordability_witness :
    (handleAutoTradeDecision "BUY" 10 (StoredPrice.price 50) (some 400) (some 0)
        []).record.status = TradeStatus.REJECTED_INSUFFICIENT_MANAGED_CASH ∧
    (handleAutoTradeDecision "BUY" 10 (StoredPrice.price 50) (some 400) (some 0)
        []).cash = some 400 ∧
    (handleAutoTradeDecision "BUY" 10 (StoredPrice.price 50) (some 600) (some 0)
        []).record.status = TradeStatus.EXECUTED_VIRTUAL ∧
    (handleAutoTradeDecision "BUY" 10 (StoredPrice.price 50) (some 600) (some 0)
        []).cash = some 100 ∧
    (handleAutoTradeDecision "BUY" 10 (StoredPrice.price 50) (some 600) (some 0)
        []).shares = some 10 ∧
    (handleAutoTradeDecision "BUY" 10 (StoredPrice.price 50) (some 600) (some 0)
        []).trades =
      [(handleAutoTradeDecision "BUY" 10 (StoredPrice.price 50) (some 600) (some 0)
        []).record] := by
  have h1 := (trade_buy_affordability 10 50 (some 400) (some 0) [] (by norm_num)).1
    (by norm_num)
  have h2 := (trade_buy_affordability 10 50 (some 600) (some 0) [] (by norm_num)).2.1
    (by norm_num)
  have h3 := (trade_buy_affordability 10 50 (some 600) (some 0) [] (by norm_num)).2.2
  refine ⟨h1.1, h1.2.1, h2.1, ?_, ?_, ?_⟩
  · rw [h2.2.1]; norm_num
  · rw [h2.2.2]; norm_num
  · simpa using h3

/-- Claim C10: whenever `last_fetched_price` is absent, non-numeric, or a
numeric value ≤ 0, the decision handler rejects with `REJECTED_NO_PRICE`
regardless of the action, mutates neither cash nor shares, and still
appends a TradeRecord with that status. -/
theorem trade_no_price_rejection (action : String) (q : Int)
    (priceAttr : StoredPrice) (cash0 : Option ℚ) (sh0 : Option Int)
    (tr : List TradeRecord)
    (h : ∀ p, getLastFetchedPrice priceAttr = some p → p ≤ 0) :
    (handleAutoTradeDecision action q priceAttr cash0 sh0 tr).record.status =
        TradeStatus.REJECTED_NO_PRICE ∧
      (handleAutoTradeDecision action q priceAttr cash0 sh0 tr).cash = cash0 ∧
      (handleAutoTradeDecision action q priceAttr cash0 sh0 tr).shares = sh0 ∧
      (handleAutoTradeDecision action q priceAttr cash0 sh0 tr).trades =
        tr ++ [(handleAutoTradeDecision action q priceAttr cash0 sh0 tr).record] := by
  cases priceAttr with
  | missing => simp [handleAutoTradeDecision, getLastFetchedPrice]
  | nonNumeric => simp [handleAutoTradeDecision, getLastFetchedPrice]
  | price p =>
      have hp : ¬ 0 < p := not_lt.mpr (h p rfl)
      simp [handleAutoTradeDecision, getLastFetchedPrice, hp]

/-- Witness for C10 on a non-numeric stored price and on a zero price. -/
theorem trade_no_price_rejection_witness :
    (handleAutoTradeDecision "BUY" 3 StoredPrice.nonNumeric (some 500) (some 2)
        []).record.status = TradeStatus.REJECTED_NO_PRICE ∧
    (handleAutoTradeDecision "BUY" 3 StoredPrice.nonNumeric (some 500) (some 2)
        []).cash = some 500 ∧
    (handleAutoTradeDecision "SELL" 3 (StoredPrice.price 0) (some 500) (some 2)
        []).record.status = TradeStatus.REJECTED_NO_PRICE ∧
    (handleAutoTradeDecision "SELL" 3 (StoredPrice.price 0) (some 500) (some 2)
        []).shares = some 2 := by
  have h1 := trade_no_price_rejection "BUY" 3 StoredPrice.nonNumeric (some 500)
    (some 2) [] (by intro p hp; simp [getLastFetchedPrice] at hp)
  have h2 := trade_no_price_rejection "SELL" 3 (StoredPrice.price 0) (some 500)
    (some 2) [] (by intro p hp; simp [getLastFetchedPrice] at hp; exact le_of_eq hp.symm)
  exact ⟨h1.1, h1.2.1, h2.1, h2.2.2.1⟩

/-- A `STOCK#<symbol>` watchlist item; every attribute is optional because a
DynamoDB `update_item` on a missing key creates the item with only the SET
attributes present. -/
structure WatchlistItem where
  shares_managed : Option Int
  current_level_score : Option Int
  threshold_abs : Option Int
  is_deleted : Option Bool
  deleted_news_count : Option Int
deriving DecidableEq

/-- The item produced when an update runs against a missing key. -/
def blankItem : WatchlistItem := ⟨none, none, none, none, none⟩

/-- The operations of this core that write a `STOCK#<symbol>` item:
watchlist add (`_handle_add_watchlist` / `_handle_add_stock` `put_item`),
conditional shares adjust, set-threshold, apply-sentiment score/threshold
write, the soft-delete marking (src/lambda/soft_delete/main.py), and the
trade worker's shares writes (BUY increments, SELL sets the new total). -/
inductive StockOp
  | addStock (initialShares : Int)
  | adjustSharesOp (delta ceiling : Int)
  | setThresholdOp (t : Int)
  | applySentimentOp (delta hint : Int)
  | markStockDeleted (affected : Int)
  | tradeBuyShares (q : Int)
  | tradeSellShares (newShares : Int)
deriving DecidableEq

/-- Effect of one operation on the stored item.  `addStock` is a `put_item`
that replaces the whole item with the defaults and `is_deleted = false`;
every other operation is an `update_item` that touches only its SET
attributes (creating the item from `blankItem` when absent). -/
def stepOp (e : Option WatchlistItem) (op : StockOp) : Option WatchlistItem :=
  match op with
  | StockOp.addStock init =>
      some ⟨some init, some 0, some 3, some false, none⟩
  | StockOp.adjustSharesOp d m =>
      let base := e.getD blankItem
      if base.shares_managed.getD 0 + d ≤ m then
        some { base with shares_managed := some (base.shares_managed.getD 0 + d) }
      else e
  | StockOp.setThresholdOp t =>
      some { e.getD blankItem with threshold_abs := some t }
  | StockOp.applySentimentOp d hint =>
      let base := e.getD blankItem
      let existing := base.threshold_abs.getD hint
      some { base with
        current_level_score := some (base.current_level_score.getD 0 + d)
        threshold_abs := some (if existing ≠ 0 then existing else hint) }
  | StockOp.markStockDeleted affected =>
      let base := e.getD blankItem
      some { base with
        is_deleted := some true
        deleted_news_count := some (base.deleted_news_count.getD 0 + affected) }
  | StockOp.tradeBuyShares q =>
      let base := e.getD blankItem
      some { base with shares_managed := some (base.shares_managed.getD 0 + q) }
  | StockOp.tradeSellShares n =>
      some { e.getD blankItem with shares_managed := some n }

/-- The stored `is_deleted` attribute of an (optional) item. -/
def itemIsDeleted (e : Option WatchlistItem) : Option Bool :=
  e.bind WatchlistItem.is_deleted

/-- A concrete soft-deleted watchlist item. -/
def deletedItemCex : WatchlistItem := ⟨some 1, some 0, some 3, some true, some 2⟩

/-- Counterexample for claim C6: a replayed watchlist add is a full
`put_item` with `is_deleted: False`, so it reactivates a soft-deleted
entry: starting from an item with `is_deleted = true`, `addStock` leaves
`is_deleted = false`. -/
theorem add_resets_is_deleted_cex :
    itemIsDeleted (some deletedItemCex) = some true ∧
    itemIsDeleted (stepOp (some deletedItemCex) (StockOp.addStock 0)) = some false :=
  ⟨rfl, rfl⟩

/-- Claim C6 as amended: `is_deleted = true` is monotonic under every
entry-writing operation of this core except the watchlist add: shares
adjusts, threshold updates, sentiment applications, soft-delete marks and
trade share writes never reset it; the watchlist add overwrites the whole
item with `is_deleted = false` and so can reactivate a deleted symbol when
replayed. -/
theorem is_deleted_monotone_except_add (e : Option WatchlistItem) (op : StockOp)
    (hop : ∀ s, op ≠ StockOp.addStock s)
    (hd : itemIsDeleted e = some true) :
    itemIsDeleted (stepOp e op) = some true := by
  cases e with
  | none => simp [itemIsDeleted] at hd
  | some it =>
      cases op with
      | addStock s => exact absurd rfl (hop s)
      | adjustSharesOp d m =>
          by_cases hc : it.shares_managed.getD 0 + d ≤ m
          · simp_all [stepOp, itemIsDeleted]
          · have hstep : stepOp (some it) (StockOp.adjustSharesOp d m) = some it := by
              simp [stepOp, hc]
            rw [hstep]
            simpa [itemIsDeleted] using hd
      | setThresholdOp t => simp_all [stepOp, itemIsDeleted]
      | applySentimentOp d hint => simp_all [stepOp, itemIsDeleted]
      | markStockDeleted affected => simp_all [stepOp, itemIsDeleted]
      | tradeBuyShares q => simp_all [stepOp, itemIsDeleted]
      | tradeSellShares n => simp_all [stepOp, itemIsDeleted]

/-- Witness for the amended C6: a threshold update and a shares adjust on a
soft-deleted item both leave `is_deleted = true`. -/
theorem is_deleted_monotone_except_add_witness :
    itemIsDeleted (stepOp (some deletedItemCex) (StockOp.setThresholdOp 7)) =
      some true ∧
    itemIsDeleted (stepOp (some deletedItemCex) (StockOp.adjustSharesOp 5 100)) =
      some true :=
  ⟨is_deleted_monotone_except_add (some deletedItemCex) (StockOp.setThresholdOp 7)
      (fun _ h => StockOp.noConfusion h) rfl,
   is_deleted_monotone_except_add (some deletedItemCex) (StockOp.adjustSharesOp 5 100)
      (fun _ h => StockOp.noConfusion h) rfl⟩

/-- Lifecycle state of one news artifact under the retention cleanup. -/
inductive ArtifactStatus
  | active
  | softTagged
  | hardDeleted
deriving DecidableEq

/-- One run of `_cleanup_news_for_symbol` (identical in
src/lambda/soft_delete/main.py and src/lambda/news_retention_cleaner/main.py)
on one artifact whose key carries a parseable `yyyy-mm-dd` date, `ageDays`
being `now - obj_date` in whole days.  A hard-deleted artifact no longer
appears in the bucket listing, so the run is a no-op on it.  A listed
artifact is deleted when `obj_date <= now - 6 weeks` (age ≥ 42 days),
else tagged `deleted=true` when `obj_date <= now - 3 weeks` (age ≥ 21
days; re-tagging an already tagged artifact rewrites the same tag), else
left alone. -/
def cleanupArtifact (ageDays : Int) : ArtifactStatus → ArtifactStatus
  | ArtifactStatus.hardDeleted => ArtifactStatus.hardDeleted
  | st =>
      if 42 ≤ ageDays then ArtifactStatus.hardDeleted
      else if 21 ≤ ageDays then ArtifactStatus.softTagged
      else st

/-- Claim C9: one cleanup run hard-deletes an active artifact iff its age is
at least 6 weeks (42 days), soft-tags it iff its age is in [3 weeks, 6
weeks), and leaves it untouched iff its age is under 3 weeks; re-running the
cleanup at the same age is a no-op on the resulting state, a soft-tagged
artifact is never reverted to active, and a hard-deleted artifact stays
deleted. -/
theorem retention_lifecycle (a : Int) (st : ArtifactStatus) :
    (cleanupArtifact a ArtifactStatus.active = ArtifactStatus.hardDeleted ↔ 42 ≤ a) ∧
    (cleanupArtifact a ArtifactStatus.active = ArtifactStatus.softTagged ↔
      21 ≤ a ∧ a < 42) ∧
    (cleanupArtifact a ArtifactStatus.active = ArtifactStatus.active ↔ a < 21) ∧
    cleanupArtifact a (cleanupArtifact a st) = cleanupArtifact a st ∧
    cleanupArtifact a ArtifactStatus.softTagged ≠ ArtifactStatus.active ∧
    cleanupArtifact a ArtifactStatus.hardDeleted = ArtifactStatus.hardDeleted := by
  by_cases h1 : 42 ≤ a <;> by_cases h2 : 21 ≤ a <;> cases st <;>
    simp [cleanupArtifact, h1, h2] <;> omega

/-- Witness for C9 at ages 10, 28 and 50 days. -/
theorem retention_lifecycle_witness :
    cleanupArtifact 10 ArtifactStatus.active = ArtifactStatus.active ∧
    cleanupArtifact 28 ArtifactStatus.active = ArtifactStatus.softTagged ∧
    cleanupArtifact 50 ArtifactStatus.active = ArtifactStatus.hardDeleted ∧
    cleanupArtifact 50 ArtifactStatus.softTagged ≠ ArtifactStatus.active :=
  ⟨(retention_lifecycle 10 ArtifactStatus.active).2.2.1.mpr (by norm_num),
   (retention_lifecycle 28 ArtifactStatus.active).2.1.mpr (by norm_num),
   (retention_lifecycle 50 ArtifactStatus.active).1.mpr (by norm_num),
   (retention_lifecycle 50 ArtifactStatus.softTagged).2.2.2.2.1⟩
